import Mathlib

/-!
Verification of the embedded browser automation subsystem
(packages/app/src-tauri/src/browser.rs).

The Rust module keeps three pieces of process-wide state: the optional
`BrowserState` behind `BROWSER_STATE`, the single pending-result slot
`BROWSER_EXTRACT_RESULT`, and the Tauri webview named "hw-browser".  All of
the commands are shallowly embedded below as pure state transformers over a
`Global` record holding those three.  JSON values (`serde_json::Value`) are
modelled by the inductive `Json`, and `serde_json::from_str` by a fuel-based
recursive-descent parser `from_str`.  External effects (the webview itself,
the clock, the filesystem read of `sync.json`, the loopback HTTP listener)
enter the model as explicit parameters; in particular each content-bearing
command takes a `delivery : Option Json` standing for the payload, if any,
that the loopback collaborator posts (via `store_browser_result`) between
the command arming the slot and its polling wait.
-/

namespace HW

/-- JSON values, modelling serde_json Value.  Numbers are modelled as
integers (the fractional and exponent parts of a numeric literal are scanned
but discarded); no verified claim inspects non-integer numbers.  Object
fields keep first-insertion order and a duplicate key overwrites the earlier
value, matching serde map insertion up to ordering. -/
inductive Json where
  | null
  | bool (b : Bool)
  | num (n : Int)
  | str (s : String)
  | arr (elems : List Json)
  | obj (fields : List (String × Json))
deriving Repr

/-- Indexing a serde_json Value with a string key: a missing key or a
non-object gives Null. -/
def Json.get : Json → String → Json
  | .obj fields, k =>
    match fields.find? (fun f => f.1 = k) with
    | some f => f.2
    | none => .null
  | _, _ => .null

/-- serde_json Value as_str: Some for strings, None otherwise. -/
def Json.as_str : Json → Option String
  | .str s => some s
  | _ => none

-- Characters that the token rules make awkward to write literally.
def squote : Char := Char.ofNat 39
def dquote : Char := Char.ofNat 34
def bslash : Char := Char.ofNat 92
def nlChar : Char := Char.ofNat 10
def crChar : Char := Char.ofNat 13
def lbrace : Char := Char.ofNat 123
def rbrace : Char := Char.ofNat 125

/-- Single-quote character as a one-character string. -/
def sq : String := String.mk [squote]

/-- JSON insignificant whitespace. -/
def jsonWs (c : Char) : Bool :=
  c = ' ' || c = nlChar || c = crChar || c = Char.ofNat 9

def skipWs : List Char → List Char
  | [] => []
  | c :: cs => if jsonWs c then skipWs cs else c :: cs

def hexVal? (c : Char) : Option Nat :=
  if '0' ≤ c ∧ c ≤ '9' then some (c.toNat - '0'.toNat)
  else if 'a' ≤ c ∧ c ≤ 'f' then some (c.toNat - 'a'.toNat + 10)
  else if 'A' ≤ c ∧ c ≤ 'F' then some (c.toNat - 'A'.toNat + 10)
  else none

/-- JSON escape characters other than the uXXXX form. -/
def jsonUnescape? (c : Char) : Option Char :=
  if c = dquote then some dquote
  else if c = bslash then some bslash
  else if c = '/' then some '/'
  else if c = 'b' then some (Char.ofNat 8)
  else if c = 'f' then some (Char.ofNat 12)
  else if c = 'n' then some nlChar
  else if c = 'r' then some crChar
  else if c = 't' then some (Char.ofNat 9)
  else none

/-- Body of a JSON string literal, after the opening double quote: returns
the decoded characters and the input remaining after the closing quote. -/
def parseStringBody : Nat → List Char → Option (List Char × List Char)
  | 0, _ => none
  | _ + 1, [] => none
  | fuel + 1, c :: cs =>
    if c = dquote then some ([], cs)
    else if c = bslash then
      match cs with
      | [] => none
      | e :: cs' =>
        if e = 'u' then
          match cs' with
          | h1 :: h2 :: h3 :: h4 :: cs2 =>
            match hexVal? h1, hexVal? h2, hexVal? h3, hexVal? h4 with
            | some a, some b, some c2, some d2 =>
              (parseStringBody fuel cs2).map
                (fun r => (Char.ofNat (((a * 16 + b) * 16 + c2) * 16 + d2) :: r.1, r.2))
            | _, _, _, _ => none
          | _ => none
        else
          match jsonUnescape? e with
          | some u => (parseStringBody fuel cs').map (fun r => (u :: r.1, r.2))
          | none => none
    else if c.toNat < 32 then none
    else (parseStringBody fuel cs).map (fun r => (c :: r.1, r.2))

/-- Decimal digit run, accumulating its value; requires at least one digit
at the call site. -/
def digitsVal : List Char → Nat → Nat × List Char
  | c :: cs, acc =>
    if c.isDigit then digitsVal cs (acc * 10 + (c.toNat - '0'.toNat)) else (acc, c :: cs)
  | [], acc => (acc, [])

def skipDigits : List Char → List Char
  | c :: cs => if c.isDigit then skipDigits cs else c :: cs
  | [] => []

/-- JSON numeric literal.  The integer part is kept; fraction and exponent
are scanned leniently and discarded (see the comment on `Json`). -/
def parseNumber (cs : List Char) : Option (Int × List Char) :=
  let signed : Bool × List Char :=
    match cs with
    | c :: rest => if c = '-' then (true, rest) else (false, cs)
    | [] => (false, cs)
  match signed.2 with
  | c :: _ =>
    if c.isDigit then
      let dv := digitsVal signed.2 0
      let afterFrac :=
        match dv.2 with
        | d :: rest => if d = '.' then skipDigits rest else d :: rest
        | [] => []
      let afterExp :=
        match afterFrac with
        | e :: rest =>
          if e = 'e' ∨ e = 'E' then
            match rest with
            | s :: rest2 => if s = '+' ∨ s = '-' then skipDigits rest2 else skipDigits rest
            | [] => []
          else e :: rest
        | [] => []
      some (if signed.1 then -(dv.1 : Int) else (dv.1 : Int), afterExp)
    else none
  | [] => none

mutual

/-- One JSON value (recursive descent with fuel). -/
def parseValue : Nat → List Char → Option (Json × List Char)
  | 0, _ => none
  | fuel + 1, cs =>
    match skipWs cs with
    | [] => none
    | c :: cs' =>
      if c = dquote then
        (parseStringBody (fuel + 1) cs').map (fun r => (Json.str (String.mk r.1), r.2))
      else if c = lbrace then
        match skipWs cs' with
        | d :: cs2 => if d = rbrace then some (Json.obj [], cs2) else parseObjFields fuel [] cs'
        | [] => none
      else if c = '[' then
        match skipWs cs' with
        | d :: cs2 => if d = ']' then some (Json.arr [], cs2) else parseArrElems fuel [] cs'
        | [] => none
      else
        match c :: cs' with
        | 't' :: 'r' :: 'u' :: 'e' :: rest => some (Json.bool true, rest)
        | 'f' :: 'a' :: 'l' :: 's' :: 'e' :: rest => some (Json.bool false, rest)
        | 'n' :: 'u' :: 'l' :: 'l' :: rest => some (Json.null, rest)
        | other => (parseNumber other).map (fun r => (Json.num r.1, r.2))

/-- Members of a JSON object, after the opening brace (nonempty case). -/
def parseObjFields : Nat → List (String × Json) → List Char → Option (Json × List Char)
  | 0, _, _ => none
  | fuel + 1, acc, cs =>
    match skipWs cs with
    | c :: cs' =>
      if c = dquote then
        match parseStringBody (fuel + 1) cs' with
        | none => none
        | some (key, cs2) =>
          match skipWs cs2 with
          | d :: cs3 =>
            if d = ':' then
              match parseValue fuel cs3 with
              | none => none
              | some (v, cs4) =>
                let acc' := insertKV acc (String.mk key) v
                match skipWs cs4 with
                | e :: cs5 =>
                  if e = ',' then parseObjFields fuel acc' cs5
                  else if e = rbrace then some (Json.obj acc', cs5)
                  else none
                | [] => none
            else none
          | [] => none
      else none
    | [] => none

/-- Elements of a JSON array, after the opening bracket (nonempty case). -/
def parseArrElems : Nat → List Json → List Char → Option (Json × List Char)
  | 0, _, _ => none
  | fuel + 1, acc, cs =>
    match parseValue fuel cs with
    | none => none
    | some (v, cs2) =>
      match skipWs cs2 with
      | e :: cs3 =>
        if e = ',' then parseArrElems fuel (acc ++ [v]) cs3
        else if e = ']' then some (Json.arr (acc ++ [v]), cs3)
        else none
      | [] => none

/-- Map insertion: replace the value of an existing key, append otherwise. -/
def insertKV : List (String × Json) → String → Json → List (String × Json)
  | [], k, v => [(k, v)]
  | (k', v') :: rest, k, v =>
    if k' = k then (k, v) :: rest else (k', v') :: insertKV rest k v

end

/-- serde_json from_str on a string slice: one value, surrounding
whitespace tolerated, and the whole input must be consumed. -/
def from_str (s : String) : Option Json :=
  match parseValue (s.length + 2) s.data with
  | some (v, rest) => if skipWs rest = [] then some v else none
  | none => none

end HW

namespace HW

-- ── State ────────────────────────────────────────────────────────

structure HistoryEntry where
  url : String
  title : String
  visited_at : Nat
deriving Repr, DecidableEq

/-- The fields of browser.rs BrowserState. -/
structure BrowserState where
  window_open : Bool
  lock_holder : Option String
  current_url : String
  status : String
  page_title : String
  extracted_text : String
  history : List HistoryEntry
  loopback_port : Nat
deriving Repr

/-- The process-wide mutable state of browser.rs: BROWSER_STATE,
BROWSER_EXTRACT_RESULT, and whether the "hw-browser" webview currently
exists in the app (the thing app.get_webview observes). -/
structure Global where
  browser_state : Option BrowserState
  extract_result : Option Json
  webview_exists : Bool
deriving Repr

-- ── URL validation ───────────────────────────────────────────────

/-- Rust char::is_whitespace: the Unicode White_Space property
(U+0009..U+000D, U+0020, U+0085, U+00A0, U+1680, U+2000..U+200A, U+2028,
U+2029, U+202F, U+205F, U+3000). -/
def rustIsWhitespace (c : Char) : Bool :=
  (9 ≤ c.toNat && c.toNat ≤ 13) || c.toNat = 32 || c.toNat = 133
    || c.toNat = 160 || c.toNat = 5760 || (8192 ≤ c.toNat && c.toNat ≤ 8202)
    || c.toNat = 8232 || c.toNat = 8233 || c.toNat = 8239 || c.toNat = 8287
    || c.toNat = 12288

/-- Rust str::trim: strip Unicode White_Space from both ends. -/
def rustTrim (s : String) : String :=
  String.mk (((s.data.dropWhile rustIsWhitespace).reverse.dropWhile rustIsWhitespace).reverse)

/-- Rust str::to_lowercase.  Char.toLower agrees with Rust lowercasing on
the ASCII range, which covers every scheme comparison in is_url_safe. -/
def rustLower (s : String) : String := String.mk (s.data.map Char.toLower)

/-- Rust str::starts_with with a string pattern. -/
def rustStartsWith (s pre : String) : Bool := pre.data.isPrefixOf s.data

/-- browser.rs is_url_safe: reject dangerous schemes, then require
http/https, on the trimmed lower-cased form of the URL. -/
def is_url_safe (url : String) : Except String Unit :=
  let lower := rustLower (rustTrim url)
  if rustStartsWith lower "javascript:" || rustStartsWith lower "data:"
      || rustStartsWith lower "file:" || rustStartsWith lower "blob:"
      || rustStartsWith lower "vbscript:" then
    Except.error ("Blocked scheme: " ++ url)
  else if !rustStartsWith lower "http://" && !rustStartsWith lower "https://" then
    Except.error ("Only http/https allowed, got: " ++ url)
  else
    Except.ok ()

-- ── Result delivery (store_browser_result) ───────────────────────

/-- browser.rs store_browser_result, called by the loopback /browser-result
handler: unconditionally overwrite the pending slot with the whole envelope,
then fold title/url/text into BROWSER_STATE (status becomes "ready") only
when the envelope's data field is a non-empty string that parses as JSON
and a session exists. -/
def store_browser_result (payload : Json) (g : Global) : Global :=
  let g1 : Global := { g with extract_result := some payload }
  let data_str := ((payload.get "data").as_str).getD ""
  if data_str = "" then g1
  else
    match from_str data_str with
    | none => g1
    | some inner =>
      match g1.browser_state with
      | none => g1
      | some st =>
        { g1 with browser_state := some { st with
            page_title := ((inner.get "title").as_str).getD "",
            current_url := ((inner.get "url").as_str).getD st.current_url,
            extracted_text := ((inner.get "text").as_str).getD "",
            status := "ready" } }

-- ── Polling wait (wait_for_extract_result) ───────────────────────

/-- One run of the polling loop of wait_for_extract_result, with no
concurrent delivery during the run (a delivery that precedes the run is the
initial slot value).  The first argument counts the remaining loop
iterations; each iteration sleeps 50 ms and then checks (takes) the slot.
Returns (result, slot left behind, number of slot checks, number of 50 ms
sleeps). -/
def waitLoop : Nat → Option Json → Except String Json × Option Json × Nat × Nat
  | 0, slot => (Except.error "Extraction timed out", slot, 0, 0)
  | n + 1, slot =>
    match slot with
    | some v => (Except.ok v, none, 1, 1)
    | none =>
      let r := waitLoop n none
      (r.1, r.2.1, r.2.2.1 + 1, r.2.2.2 + 1)

/-- browser.rs wait_for_extract_result: timeout_ms / 50 iterations of
sleep-then-take against the pending slot. -/
def wait_for_extract_result (timeout_ms : Nat) (slot : Option Json) :
    Except String Json × Option Json × Nat × Nat :=
  waitLoop (timeout_ms / 50) slot

-- ── Script construction for the content commands ─────────────────

/-- The Rust .replace of every single-quote character by backslash-quote,
applied to selector/value/filter arguments before interpolation. -/
def escapeChars : List Char → List Char
  | [] => []
  | c :: cs => if c = squote then bslash :: squote :: escapeChars cs else c :: escapeChars cs

def escapeArg (s : String) : String := String.mk (escapeChars s.data)

/-- Script built by browser_extract_content. -/
def extract_script (selector : Option String) (max_chars : Option Nat) : String :=
  let sel := escapeArg (selector.getD "")
  let chars := max_chars.getD 8000
  "window.__HW_EXTRACT__.extractAndPost(" ++ sq ++ sel ++ sq ++ ", "
    ++ toString chars ++ ", " ++ sq ++ "extract" ++ sq ++ ");"

/-- Script built by browser_get_links. -/
def links_script (filter : Option String) : String :=
  let f := escapeArg (filter.getD "")
  "window.__HW_EXTRACT__.linksAndPost(" ++ sq ++ f ++ sq ++ ", " ++ sq ++ "links" ++ sq ++ ");"

/-- Script built by browser_click_element. -/
def click_script (selector : String) : String :=
  let sel := escapeArg selector
  "window.__HW_EXTRACT__.clickAndPost(" ++ sq ++ sel ++ sq ++ ", " ++ sq ++ "click" ++ sq ++ ");"

/-- Script built by browser_fill_field. -/
def fill_script (selector value : String) : String :=
  let sel := escapeArg selector
  let val := escapeArg value
  "window.__HW_EXTRACT__.fillAndPost(" ++ sq ++ sel ++ sq ++ ", " ++ sq ++ val ++ sq ++ ", "
    ++ sq ++ "fill" ++ sq ++ ");"

-- ── History append (inline in browser_open / browser_navigate) ───

/-- History append as performed inline by both navigation paths: push the
just-left location, then remove the oldest entry when the length exceeds
50. -/
def pushHistory (h : List HistoryEntry) (e : HistoryEntry) : List HistoryEntry :=
  let h' := h ++ [e]
  if h'.length > 50 then h'.drop 1 else h'

-- ── Commands ─────────────────────────────────────────────────────

/-- Fresh-creation path of browser_open: read the loopback port from
sync.json (outcome passed in as port_cfg), require the main window, create
the hidden child webview with the generated init script, and install a new
Loading session.  Webview creation itself is modelled as succeeding. -/
def browser_open_fresh (g : Global) (port_cfg : Except String Nat) (main_window : Bool)
    (url : String) : Except String Json × Global :=
  match port_cfg with
  | Except.error e => (Except.error e, g)
  | Except.ok port =>
    if !main_window then (Except.error "Main window not found", g)
    else
      (Except.ok (Json.obj [("action", Json.str "opened"), ("url", Json.str url)]),
       { g with
          webview_exists := true,
          browser_state := some {
            window_open := true, lock_holder := none, current_url := url,
            status := "loading", page_title := "", extracted_text := "",
            history := [], loopback_port := port } })

/-- browser.rs browser_open: validate the URL first; when an open session
and its webview both exist, behave as a navigation (append history, set
loading, overwrite current_url), otherwise fall through to fresh creation.
now is the epoch_ms clock reading; navigation transport is modelled as
succeeding. -/
def browser_open (g : Global) (port_cfg : Except String Nat) (main_window : Bool)
    (now : Nat) (url : String) : Except String Json × Global :=
  match is_url_safe url with
  | Except.error e => (Except.error e, g)
  | Except.ok _ =>
    match g.browser_state with
    | some st =>
      if st.window_open && g.webview_exists then
        let st1 := if st.current_url ≠ "" then
            { st with history := pushHistory st.history ⟨st.current_url, st.page_title, now⟩ }
          else st
        (Except.ok (Json.obj [("action", Json.str "navigated"), ("url", Json.str url)]),
         { g with browser_state := some { st1 with status := "loading", current_url := url } })
      else browser_open_fresh g port_cfg main_window url
    | none => browser_open_fresh g port_cfg main_window url

/-- browser.rs browser_navigate: validate the URL, require the webview,
append the current location to history (skipped when it is empty), set
loading and the new current_url.  When BROWSER_STATE is None but the
webview exists the navigation still proceeds with no state change. -/
def browser_navigate (g : Global) (now : Nat) (url : String) : Except String Json × Global :=
  match is_url_safe url with
  | Except.error e => (Except.error e, g)
  | Except.ok _ =>
    if !g.webview_exists then (Except.error "Browser not open", g)
    else
      let g' : Global :=
        match g.browser_state with
        | some st =>
          let st1 := if st.current_url ≠ "" then
              { st with history := pushHistory st.history ⟨st.current_url, st.page_title, now⟩ }
            else st
          { g with browser_state := some { st1 with current_url := url, status := "loading" } }
        | none => g
      (Except.ok (Json.obj [("action", Json.str "navigated"), ("url", Json.str url)]), g')

/-- browser.rs browser_extract_content: require the webview, arm (clear)
the pending slot, build the escaped extractAndPost script, evaluate it
(modelled by the optional external delivery that follows), poll for up to
10 s, then decode the envelope's data field, falling back to the raw
envelope when it does not parse. -/
def browser_extract_content (g : Global) (selector : Option String)
    (max_chars : Option Nat) (delivery : Option Json) : Except String Json × Global :=
  if !g.webview_exists then (Except.error "Browser not open", g)
  else
    let g1 : Global := { g with extract_result := none }
    let _script := extract_script selector max_chars
    let g2 := match delivery with
      | some p => store_browser_result p g1
      | none => g1
    let w := wait_for_extract_result 10000 g2.extract_result
    let g3 : Global := { g2 with extract_result := w.2.1 }
    match w.1 with
    | Except.error e => (Except.error e, g3)
    | Except.ok result =>
      let data_str := ((result.get "data").as_str).getD "\x7b\x7d"
      let parsed := (from_str data_str).getD result
      (Except.ok parsed, g3)

/-- browser.rs browser_get_links: same arm, eval, await pattern with a 5 s
timeout; the data field defaults to an empty array and an unparsable data
field falls back to an empty array. -/
def browser_get_links (g : Global) (filter : Option String)
    (delivery : Option Json) : Except String Json × Global :=
  if !g.webview_exists then (Except.error "Browser not open", g)
  else
    let g1 : Global := { g with extract_result := none }
    let _script := links_script filter
    let g2 := match delivery with
      | some p => store_browser_result p g1
      | none => g1
    let w := wait_for_extract_result 5000 g2.extract_result
    let g3 : Global := { g2 with extract_result := w.2.1 }
    match w.1 with
    | Except.error e => (Except.error e, g3)
    | Except.ok result =>
      let data_str := ((result.get "data").as_str).getD "[]"
      let parsed := (from_str data_str).getD (Json.arr [])
      (Except.ok parsed, g3)

/-- browser.rs browser_click_element: same pattern, 5 s timeout, falling
back to the raw envelope when the data field does not parse. -/
def browser_click_element (g : Global) (selector : String)
    (delivery : Option Json) : Except String Json × Global :=
  if !g.webview_exists then (Except.error "Browser not open", g)
  else
    let g1 : Global := { g with extract_result := none }
    let _script := click_script selector
    let g2 := match delivery with
      | some p => store_browser_result p g1
      | none => g1
    let w := wait_for_extract_result 5000 g2.extract_result
    let g3 : Global := { g2 with extract_result := w.2.1 }
    match w.1 with
    | Except.error e => (Except.error e, g3)
    | Except.ok result =>
      let data_str := ((result.get "data").as_str).getD "\x7b\x7d"
      let parsed := (from_str data_str).getD result
      (Except.ok parsed, g3)

/-- browser.rs browser_fill_field: same pattern as click with both the
selector and the value escaped. -/
def browser_fill_field (g : Global) (selector value : String)
    (delivery : Option Json) : Except String Json × Global :=
  if !g.webview_exists then (Except.error "Browser not open", g)
  else
    let g1 : Global := { g with extract_result := none }
    let _script := fill_script selector value
    let g2 := match delivery with
      | some p => store_browser_result p g1
      | none => g1
    let w := wait_for_extract_result 5000 g2.extract_result
    let g3 : Global := { g2 with extract_result := w.2.1 }
    match w.1 with
    | Except.error e => (Except.error e, g3)
    | Except.ok result =>
      let data_str := ((result.get "data").as_str).getD "\x7b\x7d"
      let parsed := (from_str data_str).getD result
      (Except.ok parsed, g3)

/-- browser.rs browser_close: close the webview if it exists, drop the
whole BROWSER_STATE, emit the closed notification; always Ok.  Note the
pending-result slot (BROWSER_EXTRACT_RESULT) is not touched. -/
def browser_close (g : Global) : Except String Unit × Global :=
  (Except.ok (), { g with webview_exists := false, browser_state := none })

/-- browser.rs browser_acquire_lock: error naming the holder when a
different agent holds the lock, otherwise (unlocked, or re-acquisition by
the holder) set the holder; requires an existing session. -/
def browser_acquire_lock (g : Global) (agent_id : String) : Except String Unit × Global :=
  match g.browser_state with
  | some st =>
    match st.lock_holder with
    | some holder =>
      if holder ≠ agent_id then (Except.error ("Browser locked by: " ++ holder), g)
      else (Except.ok (), { g with browser_state := some { st with lock_holder := some agent_id } })
    | none => (Except.ok (), { g with browser_state := some { st with lock_holder := some agent_id } })
  | none => (Except.error "Browser not open", g)

/-- browser.rs browser_release_lock: clear the lock only when the releasing
agent is the holder; always Ok. -/
def browser_release_lock (g : Global) (agent_id : String) : Except String Unit × Global :=
  match g.browser_state with
  | some st =>
    if st.lock_holder = some agent_id then
      (Except.ok (), { g with browser_state := some { st with lock_holder := none } })
    else (Except.ok (), g)
  | none => (Except.ok (), g)

-- ── JavaScript single-quoted literal lexing (for the injection claim) ──

/-- JavaScript single-character escape decoding; hex and unicode escapes
are modelled by their trailing character, which never arises from
escapeChars output. -/
def jsUnescape (c : Char) : Char :=
  if c = 'n' then nlChar
  else if c = 't' then Char.ofNat 9
  else if c = 'r' then crChar
  else if c = 'b' then Char.ofNat 8
  else if c = 'f' then Char.ofNat 12
  else if c = 'v' then Char.ofNat 11
  else if c = '0' then Char.ofNat 0
  else c

/-- Lexing the body of a JavaScript single-quoted string literal (the
characters after the opening quote): returns the decoded contents together
with everything after the closing quote, or none when the literal never
closes (end of input, a dangling backslash, or a raw line terminator). -/
def lexSQ : List Char → Option (List Char × List Char)
  | [] => none
  | c :: cs =>
    if c = squote then some ([], cs)
    else if c = bslash then
      match cs with
      | [] => none
      | e :: cs' => (lexSQ cs').map (fun r => (jsUnescape e :: r.1, r.2))
    else if c = nlChar ∨ c = crChar then none
    else (lexSQ cs).map (fun r => (c :: r.1, r.2))

end HW

namespace HW

-- ── Helper lemmas ────────────────────────────────────────────────

theorem waitLoop_none (n : Nat) :
    waitLoop n none = (Except.error "Extraction timed out", none, n, n) := by
  induction n with
  | zero => rfl
  | succ k ih => simp [waitLoop, ih]

theorem waitLoop_some (n : Nat) (v : Json) :
    waitLoop (n + 1) (some v) = (Except.ok v, none, 1, 1) := rfl

theorem waitLoop_checks_eq_sleeps (n : Nat) (slot : Option Json) :
    (waitLoop n slot).2.2.1 = (waitLoop n slot).2.2.2 := by
  induction n with
  | zero => rfl
  | succ k ih =>
    cases slot with
    | some v => rfl
    | none => simp [waitLoop, waitLoop_none]

theorem waitLoop_checks_le (n : Nat) (slot : Option Json) :
    (waitLoop n slot).2.2.1 ≤ n := by
  cases n with
  | zero => exact Nat.le_refl 0
  | succ k =>
    cases slot with
    | some v => exact Nat.succ_le_succ (Nat.zero_le k)
    | none => simp [waitLoop, waitLoop_none]

theorem store_browser_result_slot (p : Json) (g : Global) :
    (store_browser_result p g).extract_result = some p := by
  obtain ⟨bs, er, wv⟩ := g
  unfold store_browser_result
  dsimp only
  split
  · rfl
  · cases from_str (((p.get "data").as_str).getD "") with
    | none => rfl
    | some inner =>
      cases bs with
      | none => rfl
      | some st => rfl

theorem store_browser_result_webview (p : Json) (g : Global) :
    (store_browser_result p g).webview_exists = g.webview_exists := by
  obtain ⟨bs, er, wv⟩ := g
  unfold store_browser_result
  dsimp only
  split
  · rfl
  · cases from_str (((p.get "data").as_str).getD "") with
    | none => rfl
    | some inner =>
      cases bs with
      | none => rfl
      | some st => rfl

-- ── C1 ───────────────────────────────────────────────────────────

/-- C1: the result correlator slot is single-take.  A delivery
(store_browser_result) puts exactly the delivered payload in the slot; a
following awaitResult (wait_for_extract_result, any timeout of at least one
50 ms poll interval) returns exactly that payload and empties the slot; a
second awaitResult on the now-empty slot, with no intervening delivery,
returns the Timeout error; and with no delivery at all the wait returns the
Timeout error after 50 ms times floor(timeout/50) of sleeping, which is at
most the configured timeout and in particular within twice it. -/
theorem c1_correlator_single_take (g : Global) (p : Json) (t : Nat) (ht : 50 ≤ t) :
    (store_browser_result p g).extract_result = some p
  ∧ (wait_for_extract_result t (store_browser_result p g).extract_result).1 = Except.ok p
  ∧ (wait_for_extract_result t (store_browser_result p g).extract_result).2.1 = none
  ∧ (wait_for_extract_result t none).1 = Except.error "Extraction timed out"
  ∧ (wait_for_extract_result t none).2.2.2 * 50 ≤ t
  ∧ (wait_for_extract_result t none).2.2.2 * 50 ≤ 2 * t := by
  have hslot := store_browser_result_slot p g
  have hiter : t / 50 = (t / 50 - 1) + 1 := by
    have h1 : 1 ≤ t / 50 := (Nat.one_le_div_iff (by norm_num)).mpr ht
    omega
  refine ⟨hslot, ?_, ?_, ?_, ?_, ?_⟩
  · rw [hslot]; unfold wait_for_extract_result; rw [hiter, waitLoop_some]
  · rw [hslot]; unfold wait_for_extract_result; rw [hiter, waitLoop_some]
  · unfold wait_for_extract_result; rw [waitLoop_none]
  · unfold wait_for_extract_result; rw [waitLoop_none]
    simpa [Nat.mul_comm] using Nat.div_mul_le_self t 50
  · unfold wait_for_extract_result; rw [waitLoop_none]
    dsimp only
    have := Nat.div_mul_le_self t 50
    omega

/-- Witness for C1 at timeout 200 ms and a concrete payload. -/
theorem c1_correlator_single_take_witness :
    (50 ≤ 200)
  ∧ ((store_browser_result (Json.str "payload") ⟨none, none, false⟩).extract_result
      = some (Json.str "payload")
  ∧ (wait_for_extract_result 200
       (store_browser_result (Json.str "payload") ⟨none, none, false⟩).extract_result).1
      = Except.ok (Json.str "payload")
  ∧ (wait_for_extract_result 200
       (store_browser_result (Json.str "payload") ⟨none, none, false⟩).extract_result).2.1
      = none
  ∧ (wait_for_extract_result 200 none).1 = Except.error "Extraction timed out"
  ∧ (wait_for_extract_result 200 none).2.2.2 * 50 ≤ 200
  ∧ (wait_for_extract_result 200 none).2.2.2 * 50 ≤ 2 * 200) :=
  ⟨by decide, c1_correlator_single_take ⟨none, none, false⟩ (Json.str "payload") 200 (by decide)⟩

-- ── C9 ───────────────────────────────────────────────────────────

/-- C9 counterexample: with timeout 100 ms and a payload already delivered,
the wait performs exactly one check of the slot, not floor(100 / 50) = 2,
so the loop does not perform exactly floor(timeout/50) checks in total on
every run. -/
theorem c9_checks_counterexample :
    (wait_for_extract_result 100 (some (Json.str "x"))).2.2.1 = 1
  ∧ 100 / 50 = 2 ∧ (1 : Nat) ≠ 2 := by
  refine ⟨rfl, rfl, by decide⟩

/-- C9 (amended): each poll iteration is one 50 ms sleep followed by one
check of the slot (so a run makes as many sleeps as checks), a run makes at
most floor(timeout/50) checks, and exactly that many - returning the
timeout error - when the slot is never filled; consequently, for every
timeout below 50 the wait returns the timeout error immediately, with zero
checks and the slot left exactly as it was, even when a payload was
delivered before the call. -/
theorem c9_wait_poll_schedule (t : Nat) (slot : Option Json) :
    (wait_for_extract_result t slot).2.2.1 = (wait_for_extract_result t slot).2.2.2
  ∧ (wait_for_extract_result t slot).2.2.1 ≤ t / 50
  ∧ (wait_for_extract_result t none).2.2.1 = t / 50
  ∧ (wait_for_extract_result t none).1 = Except.error "Extraction timed out"
  ∧ (t < 50 → wait_for_extract_result t slot
      = (Except.error "Extraction timed out", slot, 0, 0)) := by
  refine ⟨waitLoop_checks_eq_sleeps _ _, waitLoop_checks_le _ _, ?_, ?_, ?_⟩
  · unfold wait_for_extract_result; rw [waitLoop_none]
  · unfold wait_for_extract_result; rw [waitLoop_none]
  · intro hlt
    have hz : t / 50 = 0 := Nat.div_eq_of_lt hlt
    unfold wait_for_extract_result
    rw [hz]
    rfl

/-- Witness for C9 at timeout 30 ms with a payload already in the slot. -/
theorem c9_wait_poll_schedule_witness :
    ((wait_for_extract_result 30 (some (Json.str "early"))).2.2.1
      = (wait_for_extract_result 30 (some (Json.str "early"))).2.2.2
  ∧ (wait_for_extract_result 30 (some (Json.str "early"))).2.2.1 ≤ 30 / 50
  ∧ (wait_for_extract_result 30 none).2.2.1 = 30 / 50
  ∧ (wait_for_extract_result 30 none).1 = Except.error "Extraction timed out"
  ∧ (30 < 50 → wait_for_extract_result 30 (some (Json.str "early"))
      = (Except.error "Extraction timed out", some (Json.str "early"), 0, 0)))
  ∧ wait_for_extract_result 30 (some (Json.str "early"))
      = (Except.error "Extraction timed out", some (Json.str "early"), 0, 0) :=
  ⟨c9_wait_poll_schedule 30 (some (Json.str "early")),
   (c9_wait_poll_schedule 30 (some (Json.str "early"))).2.2.2.2 (by decide)⟩

-- ── C10 ──────────────────────────────────────────────────────────

/-- C10: store_browser_result unconditionally overwrites the pending slot
with the full delivered envelope, and folds fields into the session state
only when the envelope's data field is a non-empty string that parses as
JSON: when data is missing, empty, or a non-string the session state is
untouched, and likewise when it is a string that does not parse as JSON -
so a waiting command can receive a malformed envelope while the session
state stays exactly as it was. -/
theorem c10_store_overwrite_guarded_fold (p : Json) (g : Global) :
    (store_browser_result p g).extract_result = some p
  ∧ (((p.get "data").as_str).getD "" = "" →
      (store_browser_result p g).browser_state = g.browser_state)
  ∧ (∀ d, (p.get "data").as_str = some d → from_str d = none →
      (store_browser_result p g).browser_state = g.browser_state) := by
  obtain ⟨bs, er, wv⟩ := g
  refine ⟨store_browser_result_slot p ⟨bs, er, wv⟩, ?_, ?_⟩
  · intro hempty
    unfold store_browser_result
    simp [hempty]
  · intro d hd hparse
    unfold store_browser_result
    dsimp only
    split
    · rfl
    · rw [hd]
      simp only [Option.getD_some]
      rw [hparse]

/-- Witness for C10: a malformed envelope whose data field is not valid
JSON overwrites the slot but leaves the session state untouched. -/
theorem c10_store_overwrite_guarded_fold_witness :
    ((store_browser_result (Json.obj [("action", Json.str "extract"), ("data", Json.str "not json")])
        ⟨some ⟨true, none, "https://a.com", "loading", "T", "old", [], 4042⟩, none, true⟩).extract_result
      = some (Json.obj [("action", Json.str "extract"), ("data", Json.str "not json")]))
  ∧ ((Json.obj [("action", Json.str "extract"), ("data", Json.str "not json")]).get "data").as_str
      = some "not json"
  ∧ from_str "not json" = none
  ∧ (store_browser_result (Json.obj [("action", Json.str "extract"), ("data", Json.str "not json")])
        ⟨some ⟨true, none, "https://a.com", "loading", "T", "old", [], 4042⟩, none, true⟩).browser_state
      = some ⟨true, none, "https://a.com", "loading", "T", "old", [], 4042⟩ :=
  ⟨(c10_store_overwrite_guarded_fold _ _).1, by rfl, by rfl,
   (c10_store_overwrite_guarded_fold _ _).2.2 "not json" (by rfl) (by rfl)⟩

end HW

namespace HW

-- ── C2 ───────────────────────────────────────────────────────────

/-- Example session state used by concrete witnesses. -/
def stExample : BrowserState :=
  ⟨true, none, "https://a.com", "loading", "T", "old", [], 4042⟩

/-- C2 counterexample: a payload delivered before close survives the close
untouched - browser_close never writes the pending-result slot, so the
claim that after close the slot holds no payload from before the close is
false. -/
theorem c2_close_counterexample :
    (browser_close ⟨some stExample, some (Json.str "stale"), true⟩).2.extract_result
      = some (Json.str "stale")
  ∧ some (Json.str "stale") ≠ (none : Option Json) := by
  constructor
  · rfl
  · intro h; cases h

/-- C2 (amended): browser_close always succeeds, discards the whole
session, and closes the webview, so closing an unopened session is a no-op
success and every content-bearing command afterwards fails with the
Browser-not-open precondition error without changing anything; but close
does not clear the pending-result slot - any payload delivered before the
close stays in the slot (each content command clears it itself before
waiting). -/
theorem c2_close_idempotent_discard (g : Global) (sel : Option String) (mc : Option Nat)
    (f : Option String) (selc v : String) (dv : Option Json) :
    (browser_close g).1 = Except.ok ()
  ∧ (browser_close g).2.browser_state = none
  ∧ (browser_close g).2.webview_exists = false
  ∧ (browser_close g).2.extract_result = g.extract_result
  ∧ browser_close (browser_close g).2 = (Except.ok (), (browser_close g).2)
  ∧ browser_extract_content (browser_close g).2 sel mc dv
      = (Except.error "Browser not open", (browser_close g).2)
  ∧ browser_get_links (browser_close g).2 f dv
      = (Except.error "Browser not open", (browser_close g).2)
  ∧ browser_click_element (browser_close g).2 selc dv
      = (Except.error "Browser not open", (browser_close g).2)
  ∧ browser_fill_field (browser_close g).2 selc v dv
      = (Except.error "Browser not open", (browser_close g).2) := by
  obtain ⟨bs, er, wv⟩ := g
  refine ⟨rfl, rfl, rfl, rfl, rfl, ?_, ?_, ?_, ?_⟩ <;>
    simp [browser_close, browser_extract_content, browser_get_links,
      browser_click_element, browser_fill_field]

-- ── C7 ───────────────────────────────────────────────────────────

/-- C7: when no result is delivered, every content-bearing command
(extract, links, click, fill) returns the "Extraction timed out" error and
the whole state is exactly what it was when the wait began: the session
state (in particular its status field) is untouched and the pending slot is
still the armed empty slot. -/
theorem c7_timeout_frame (g : Global) (sel : Option String) (mc : Option Nat)
    (f : Option String) (selc v : String) (hwv : g.webview_exists = true) :
    browser_extract_content g sel mc none
      = (Except.error "Extraction timed out", { g with extract_result := none })
  ∧ browser_get_links g f none
      = (Except.error "Extraction timed out", { g with extract_result := none })
  ∧ browser_click_element g selc none
      = (Except.error "Extraction timed out", { g with extract_result := none })
  ∧ browser_fill_field g selc v none
      = (Except.error "Extraction timed out", { g with extract_result := none }) := by
  obtain ⟨bs, er, wv⟩ := g
  subst hwv
  refine ⟨?_, ?_, ?_, ?_⟩ <;>
    simp [browser_extract_content, browser_get_links, browser_click_element,
      browser_fill_field, wait_for_extract_result, waitLoop_none]

/-- Witness for C7 on a concrete open session. -/
theorem c7_timeout_frame_witness :
    (Global.webview_exists ⟨some stExample, none, true⟩ = true)
  ∧ (browser_extract_content ⟨some stExample, none, true⟩ none (some 100) none
      = (Except.error "Extraction timed out", ⟨some stExample, none, true⟩)
  ∧ browser_get_links ⟨some stExample, none, true⟩ none none
      = (Except.error "Extraction timed out", ⟨some stExample, none, true⟩)
  ∧ browser_click_element ⟨some stExample, none, true⟩ "#b" none
      = (Except.error "Extraction timed out", ⟨some stExample, none, true⟩)
  ∧ browser_fill_field ⟨some stExample, none, true⟩ "#i" "x" none
      = (Except.error "Extraction timed out", ⟨some stExample, none, true⟩)) :=
  ⟨rfl, c7_timeout_frame ⟨some stExample, none, true⟩ none (some 100) none "#b" "x" rfl⟩

-- ── C6 ───────────────────────────────────────────────────────────

/-- C6: the lock arbiter protocol on an unlocked session, for distinct
agents A and B: acquire(A) succeeds and makes A the holder; acquire(B) then
fails with an error naming holder A and changes nothing; acquire(A) again
succeeds idempotently with no state change; release(B) while A holds is a
no-op success; release(A) clears the lock, after which acquire(B) succeeds
and makes B the holder. -/
theorem c6_lock_protocol (g : Global) (st : BrowserState) (A B : String)
    (hst : g.browser_state = some st) (hnolock : st.lock_holder = none)
    (hAB : A ≠ B) :
    (browser_acquire_lock g A).1 = Except.ok ()
  ∧ (browser_acquire_lock g A).2.browser_state = some { st with lock_holder := some A }
  ∧ (browser_acquire_lock (browser_acquire_lock g A).2 B).1
      = Except.error ("Browser locked by: " ++ A)
  ∧ (browser_acquire_lock (browser_acquire_lock g A).2 B).2 = (browser_acquire_lock g A).2
  ∧ (browser_acquire_lock (browser_acquire_lock g A).2 A).1 = Except.ok ()
  ∧ (browser_acquire_lock (browser_acquire_lock g A).2 A).2 = (browser_acquire_lock g A).2
  ∧ browser_release_lock (browser_acquire_lock g A).2 B
      = (Except.ok (), (browser_acquire_lock g A).2)
  ∧ (browser_release_lock (browser_acquire_lock g A).2 A).1 = Except.ok ()
  ∧ (browser_release_lock (browser_acquire_lock g A).2 A).2.browser_state
      = some { st with lock_holder := none }
  ∧ (browser_acquire_lock
        (browser_release_lock (browser_acquire_lock g A).2 A).2 B).1 = Except.ok ()
  ∧ (browser_acquire_lock
        (browser_release_lock (browser_acquire_lock g A).2 A).2 B).2.browser_state
      = some { st with lock_holder := some B } := by
  obtain ⟨bs, er, wv⟩ := g
  dsimp only at hst
  subst hst
  have hBA : ¬ (A = B) := hAB
  refine ⟨?_, ?_, ?_, ?_, ?_, ?_, ?_, ?_, ?_, ?_, ?_⟩ <;>
    simp [browser_acquire_lock, browser_release_lock, hnolock, hBA, Ne,
      fun h : B = A => hBA h.symm]

/-- Witness for C6 with concrete agents "A" and "B" on a concrete unlocked
session. -/
theorem c6_lock_protocol_witness :
    (Global.browser_state ⟨some stExample, none, true⟩ = some stExample)
  ∧ stExample.lock_holder = none
  ∧ "A" ≠ "B"
  ∧ ((browser_acquire_lock ⟨some stExample, none, true⟩ "A").1 = Except.ok ()
  ∧ (browser_acquire_lock ⟨some stExample, none, true⟩ "A").2.browser_state
      = some { stExample with lock_holder := some "A" }
  ∧ (browser_acquire_lock (browser_acquire_lock ⟨some stExample, none, true⟩ "A").2 "B").1
      = Except.error ("Browser locked by: " ++ "A")
  ∧ (browser_acquire_lock (browser_acquire_lock ⟨some stExample, none, true⟩ "A").2 "B").2
      = (browser_acquire_lock ⟨some stExample, none, true⟩ "A").2
  ∧ (browser_acquire_lock (browser_acquire_lock ⟨some stExample, none, true⟩ "A").2 "A").1
      = Except.ok ()
  ∧ (browser_acquire_lock (browser_acquire_lock ⟨some stExample, none, true⟩ "A").2 "A").2
      = (browser_acquire_lock ⟨some stExample, none, true⟩ "A").2
  ∧ browser_release_lock (browser_acquire_lock ⟨some stExample, none, true⟩ "A").2 "B"
      = (Except.ok (), (browser_acquire_lock ⟨some stExample, none, true⟩ "A").2)
  ∧ (browser_release_lock (browser_acquire_lock ⟨some stExample, none, true⟩ "A").2 "A").1
      = Except.ok ()
  ∧ (browser_release_lock (browser_acquire_lock ⟨some stExample, none, true⟩ "A").2 "A").2.browser_state
      = some { stExample with lock_holder := none }
  ∧ (browser_acquire_lock
        (browser_release_lock (browser_acquire_lock ⟨some stExample, none, true⟩ "A").2 "A").2 "B").1
      = Except.ok ()
  ∧ (browser_acquire_lock
        (browser_release_lock (browser_acquire_lock ⟨some stExample, none, true⟩ "A").2 "A").2 "B").2.browser_state
      = some { stExample with lock_holder := some "B" }) :=
  ⟨rfl, rfl, by decide,
   c6_lock_protocol ⟨some stExample, none, true⟩ stExample "A" "B" rfl rfl (by decide)⟩

end HW

namespace HW

-- ── C5 ───────────────────────────────────────────────────────────

theorem pushHistory_length_le (h : List HistoryEntry) (e : HistoryEntry)
    (hle : h.length ≤ 50) : (pushHistory h e).length ≤ 50 := by
  unfold pushHistory
  dsimp only
  split
  · simpa using hle
  · simp_all

theorem pushHistory_full (h : List HistoryEntry) (e : HistoryEntry)
    (hlen : h.length = 50) : pushHistory h e = h.tail ++ [e] := by
  unfold pushHistory
  dsimp only
  rw [if_pos (by simp [hlen])]
  rw [List.drop_append_of_le_length (by omega), List.drop_one]

/-- C5: the navigation history is capped at 50 entries.  Both navigation
paths (browser_navigate and the navigate branch of browser_open) append the
just-left location through the same push-then-trim step; that step keeps
any history of at most 50 entries at most 50 long, and on a full history of
exactly 50 entries it evicts exactly the oldest entry, preserving the order
of the remaining 50 and appending the new entry at the end. -/
theorem c5_history_capped (g : Global) (st : BrowserState) (now : Nat) (url : String)
    (pc : Except String Nat) (mw : Bool)
    (hst : g.browser_state = some st) (hwv : g.webview_exists = true)
    (hopen : st.window_open = true) (hcur : st.current_url ≠ "")
    (hsafe : is_url_safe url = Except.ok ()) :
    (browser_navigate g now url).2.browser_state
      = some { st with history := pushHistory st.history ⟨st.current_url, st.page_title, now⟩,
                        current_url := url, status := "loading" }
  ∧ (browser_open g pc mw now url).2.browser_state
      = some { st with history := pushHistory st.history ⟨st.current_url, st.page_title, now⟩,
                        current_url := url, status := "loading" }
  ∧ (st.history.length ≤ 50 →
      (pushHistory st.history ⟨st.current_url, st.page_title, now⟩).length ≤ 50)
  ∧ (st.history.length = 50 →
      pushHistory st.history ⟨st.current_url, st.page_title, now⟩
        = st.history.tail ++ [⟨st.current_url, st.page_title, now⟩]
      ∧ (pushHistory st.history ⟨st.current_url, st.page_title, now⟩).length = 50) := by
  obtain ⟨bs, er, wv⟩ := g
  dsimp only at hst hwv
  subst hst hwv
  refine ⟨?_, ?_, pushHistory_length_le _ _, ?_⟩
  · simp [browser_navigate, hsafe, hcur]
  · simp [browser_open, hsafe, hopen, hcur]
  · intro hlen
    refine ⟨pushHistory_full _ _ hlen, ?_⟩
    rw [pushHistory_full _ _ hlen]
    simp [hlen]

/-- Witness for C5 on a session whose history is exactly 50 entries long. -/
theorem c5_history_capped_witness :
    (Global.browser_state
        ⟨some { stExample with history := List.replicate 50 ⟨"https://old.com", "Old", 1⟩ }, none, true⟩
      = some { stExample with history := List.replicate 50 ⟨"https://old.com", "Old", 1⟩ })
  ∧ (Global.webview_exists
        ⟨some { stExample with history := List.replicate 50 ⟨"https://old.com", "Old", 1⟩ }, none, true⟩
      = true)
  ∧ ({ stExample with history := List.replicate 50 ⟨"https://old.com", "Old", 1⟩ }.window_open = true)
  ∧ ({ stExample with history := List.replicate 50 ⟨"https://old.com", "Old", 1⟩ }.current_url ≠ "")
  ∧ (is_url_safe "https://b.com" = Except.ok ())
  ∧ ((browser_navigate
        ⟨some { stExample with history := List.replicate 50 ⟨"https://old.com", "Old", 1⟩ }, none, true⟩
        7 "https://b.com").2.browser_state
      = some { stExample with
          history := pushHistory (List.replicate 50 ⟨"https://old.com", "Old", 1⟩)
            ⟨"https://a.com", "T", 7⟩,
          current_url := "https://b.com", status := "loading" }
  ∧ (pushHistory (List.replicate 50 ⟨"https://old.com", "Old", 1⟩) ⟨"https://a.com", "T", 7⟩
      = (List.replicate 50 ⟨"https://old.com", "Old", 1⟩).tail ++ [⟨"https://a.com", "T", 7⟩]
  ∧ (pushHistory (List.replicate 50 ⟨"https://old.com", "Old", 1⟩) ⟨"https://a.com", "T", 7⟩).length
      = 50)) := by
  have h := c5_history_capped
    ⟨some { stExample with history := List.replicate 50 ⟨"https://old.com", "Old", 1⟩ }, none, true⟩
    { stExample with history := List.replicate 50 ⟨"https://old.com", "Old", 1⟩ }
    7 "https://b.com" (Except.ok 4042) true rfl rfl rfl (by decide) (by rfl)
  exact ⟨rfl, rfl, rfl, by decide, by rfl, h.1, h.2.2.2 (by simp)⟩

-- ── C3 ───────────────────────────────────────────────────────────

theorem isPrefixOf_head_ne {a b : Char} {p q l : List Char}
    (hne : b ≠ a) (hp : List.isPrefixOf (a :: p) l = true) :
    List.isPrefixOf (b :: q) l = false := by
  cases l with
  | nil => simp [List.isPrefixOf] at hp
  | cons c l' =>
    simp only [List.isPrefixOf, Bool.and_eq_true, beq_iff_eq] at hp
    simp only [List.isPrefixOf, Bool.and_eq_false_iff, beq_eq_false_iff_ne]
    exact Or.inl (hp.1 ▸ hne)

/-- A URL whose normalized form starts with http:// or https:// starts with
the letter h, so it cannot start with any of the five blocked schemes. -/
theorem http_not_blocked (s : String)
    (h : rustStartsWith s "http://" = true ∨ rustStartsWith s "https://" = true) :
    rustStartsWith s "javascript:" = false ∧ rustStartsWith s "data:" = false
  ∧ rustStartsWith s "file:" = false ∧ rustStartsWith s "blob:" = false
  ∧ rustStartsWith s "vbscript:" = false := by
  have hp : List.isPrefixOf ('h' :: 't' :: 't' :: 'p' :: ':' :: '/' :: '/' :: []) s.data = true ∨
      List.isPrefixOf ('h' :: 't' :: 't' :: 'p' :: 's' :: ':' :: '/' :: '/' :: []) s.data = true := by
    cases h with
    | inl h1 => exact Or.inl h1
    | inr h1 => exact Or.inr h1
  have key : ∀ (b : Char) (q : List Char), b ≠ 'h' →
      List.isPrefixOf (b :: q) s.data = false := by
    intro b q hb
    cases hp with
    | inl h1 => exact isPrefixOf_head_ne hb h1
    | inr h1 => exact isPrefixOf_head_ne hb h1
  exact ⟨key 'j' _ (by decide), key 'd' _ (by decide), key 'f' _ (by decide),
    key 'b' _ (by decide), key 'v' _ (by decide)⟩

/-- C3: the URL safety gate.  On the trimmed, lower-cased form of the URL:
a blocked scheme (javascript, data, file, blob, vbscript - any letter case)
yields the Blocked-scheme error; otherwise anything that does not start
with http:// or https:// yields the http/https-only error; anything that
does start with http:// or https:// passes, whatever its path or query;
and validation runs before any state mutation: when it fails, browser_open
and browser_navigate return its error with the state untouched. -/
theorem c3_url_gate (url : String) (g : Global) (pc : Except String Nat)
    (mw : Bool) (now : Nat) :
    ((rustStartsWith (rustLower (rustTrim url)) "javascript:" = true
      ∨ rustStartsWith (rustLower (rustTrim url)) "data:" = true
      ∨ rustStartsWith (rustLower (rustTrim url)) "file:" = true
      ∨ rustStartsWith (rustLower (rustTrim url)) "blob:" = true
      ∨ rustStartsWith (rustLower (rustTrim url)) "vbscript:" = true) →
        is_url_safe url = Except.error ("Blocked scheme: " ++ url))
  ∧ ((rustStartsWith (rustLower (rustTrim url)) "javascript:" = false
      ∧ rustStartsWith (rustLower (rustTrim url)) "data:" = false
      ∧ rustStartsWith (rustLower (rustTrim url)) "file:" = false
      ∧ rustStartsWith (rustLower (rustTrim url)) "blob:" = false
      ∧ rustStartsWith (rustLower (rustTrim url)) "vbscript:" = false) →
      rustStartsWith (rustLower (rustTrim url)) "http://" = false →
      rustStartsWith (rustLower (rustTrim url)) "https://" = false →
        is_url_safe url = Except.error ("Only http/https allowed, got: " ++ url))
  ∧ ((rustStartsWith (rustLower (rustTrim url)) "http://" = true
      ∨ rustStartsWith (rustLower (rustTrim url)) "https://" = true) →
        is_url_safe url = Except.ok ())
  ∧ (∀ e, is_url_safe url = Except.error e →
        browser_open g pc mw now url = (Except.error e, g)
      ∧ browser_navigate g now url = (Except.error e, g)) := by
  refine ⟨?_, ?_, ?_, ?_⟩
  · intro h
    unfold is_url_safe
    rcases h with h | h | h | h | h <;> simp [h]
  · intro hb hh hs
    unfold is_url_safe
    simp [hb.1, hb.2.1, hb.2.2.1, hb.2.2.2.1, hb.2.2.2.2, hh, hs]
  · intro h
    have hb := http_not_blocked (rustLower (rustTrim url)) h
    unfold is_url_safe
    rcases h with h | h <;>
      simp [hb.1, hb.2.1, hb.2.2.1, hb.2.2.2.1, hb.2.2.2.2, h]
  · intro e he
    constructor
    · unfold browser_open
      rw [he]
    · unfold browser_navigate
      rw [he]

/-- Witness for C3 on a mixed-case blocked URL with surrounding whitespace,
a non-http scheme, and an https URL with path and query. -/
theorem c3_url_gate_witness :
    (rustStartsWith (rustLower (rustTrim "  JAVAscript:alert(1)")) "javascript:" = true)
  ∧ is_url_safe "  JAVAscript:alert(1)"
      = Except.error ("Blocked scheme: " ++ "  JAVAscript:alert(1)")
  ∧ (rustStartsWith (rustLower (rustTrim "ftp://host/x")) "javascript:" = false
      ∧ rustStartsWith (rustLower (rustTrim "ftp://host/x")) "data:" = false
      ∧ rustStartsWith (rustLower (rustTrim "ftp://host/x")) "file:" = false
      ∧ rustStartsWith (rustLower (rustTrim "ftp://host/x")) "blob:" = false
      ∧ rustStartsWith (rustLower (rustTrim "ftp://host/x")) "vbscript:" = false)
  ∧ is_url_safe "ftp://host/x"
      = Except.error ("Only http/https allowed, got: " ++ "ftp://host/x")
  ∧ (rustStartsWith (rustLower (rustTrim "HTTPS://Example.com/a b?q=1")) "https://" = true)
  ∧ is_url_safe "HTTPS://Example.com/a b?q=1" = Except.ok ()
  ∧ browser_open ⟨some stExample, none, true⟩ (Except.ok 4042) true 7 "ftp://host/x"
      = (Except.error ("Only http/https allowed, got: " ++ "ftp://host/x"),
         ⟨some stExample, none, true⟩)
  ∧ browser_navigate ⟨some stExample, none, true⟩ 7 "ftp://host/x"
      = (Except.error ("Only http/https allowed, got: " ++ "ftp://host/x"),
         ⟨some stExample, none, true⟩) := by
  have h1 := (c3_url_gate "  JAVAscript:alert(1)" ⟨some stExample, none, true⟩
    (Except.ok 4042) true 7).1 (Or.inl (by decide))
  have h2 := (c3_url_gate "ftp://host/x" ⟨some stExample, none, true⟩
    (Except.ok 4042) true 7).2.1 (by decide) (by decide) (by decide)
  have h3 := (c3_url_gate "HTTPS://Example.com/a b?q=1" ⟨some stExample, none, true⟩
    (Except.ok 4042) true 7).2.2.1 (Or.inr (by decide))
  have h4 := (c3_url_gate "ftp://host/x" ⟨some stExample, none, true⟩
    (Except.ok 4042) true 7).2.2.2 _ h2
  exact ⟨by decide, h1, by decide, h2, by decide, h3, h4.1, h4.2⟩

end HW

namespace HW

-- ── C8 ───────────────────────────────────────────────────────────

/-- C8: when a result envelope whose data field is a JSON-encoded string is
delivered before the timeout, browser_extract_content returns the decoded
inner payload - not the raw envelope - and, as the side effect performed by
store_browser_result, the session's pageTitle, currentUrl and extractedText
are set from the inner payload's title/url/text fields with status set to
ready; the taken slot is left empty. -/
theorem c8_extract_unwraps (g : Global) (st : BrowserState) (sel : Option String)
    (mc : Option Nat) (e inner : Json) (d ti u tx : String)
    (hwv : g.webview_exists = true) (hst : g.browser_state = some st)
    (hdata : e.get "data" = Json.str d) (hparse : from_str d = some inner)
    (hti : inner.get "title" = Json.str ti) (hu : inner.get "url" = Json.str u)
    (htx : inner.get "text" = Json.str tx) :
    (browser_extract_content g sel mc (some e)).1 = Except.ok inner
  ∧ (browser_extract_content g sel mc (some e)).2.browser_state
      = some { st with page_title := ti, current_url := u,
                        extracted_text := tx, status := "ready" }
  ∧ (browser_extract_content g sel mc (some e)).2.extract_result = none := by
  obtain ⟨bs, er, wv⟩ := g
  dsimp only at hwv hst
  subst hwv hst
  have hd_ne : d ≠ "" := by
    intro hde
    rw [hde] at hparse
    exact Option.noConfusion hparse
  have hstore : store_browser_result e ⟨some st, none, true⟩
      = ⟨some { st with page_title := ti, current_url := u,
                        extracted_text := tx, status := "ready" }, some e, true⟩ := by
    unfold store_browser_result
    rw [hdata]
    simp only [Json.as_str, Option.getD_some, if_neg hd_ne, hparse, hti, hu, htx]
  unfold browser_extract_content
  simp only [Bool.not_true, Bool.false_eq_true, if_false]
  rw [show ({ browser_state := some st, extract_result := none, webview_exists := true } : Global)
      = ⟨some st, none, true⟩ from rfl]
  rw [hstore]
  simp only [wait_for_extract_result]
  norm_num
  rw [show (200 : Nat) = 199 + 1 from rfl, waitLoop_some]
  simp [hdata, Json.as_str, hparse]

/-- Witness for C8 with the concrete envelope of the spec scenario. -/
theorem c8_extract_unwraps_witness :
    (Global.webview_exists ⟨some stExample, none, true⟩ = true)
  ∧ (Global.browser_state ⟨some stExample, none, true⟩ = some stExample)
  ∧ ((Json.obj [("action", Json.str "extract"),
        ("data", Json.str "\x7b\"title\":\"Example\",\"url\":\"https://example.com\",\"text\":\"Hi\"\x7d")]).get "data"
      = Json.str "\x7b\"title\":\"Example\",\"url\":\"https://example.com\",\"text\":\"Hi\"\x7d")
  ∧ (from_str "\x7b\"title\":\"Example\",\"url\":\"https://example.com\",\"text\":\"Hi\"\x7d"
      = some (Json.obj [("title", Json.str "Example"), ("url", Json.str "https://example.com"),
          ("text", Json.str "Hi")]))
  ∧ ((browser_extract_content ⟨some stExample, none, true⟩ none (some 100)
        (some (Json.obj [("action", Json.str "extract"),
          ("data", Json.str "\x7b\"title\":\"Example\",\"url\":\"https://example.com\",\"text\":\"Hi\"\x7d")]))).1
      = Except.ok (Json.obj [("title", Json.str "Example"),
          ("url", Json.str "https://example.com"), ("text", Json.str "Hi")])
  ∧ (browser_extract_content ⟨some stExample, none, true⟩ none (some 100)
        (some (Json.obj [("action", Json.str "extract"),
          ("data", Json.str "\x7b\"title\":\"Example\",\"url\":\"https://example.com\",\"text\":\"Hi\"\x7d")]))).2.browser_state
      = some { stExample with
                page_title := "Example", current_url := "https://example.com",
                extracted_text := "Hi", status := "ready" }
  ∧ (browser_extract_content ⟨some stExample, none, true⟩ none (some 100)
        (some (Json.obj [("action", Json.str "extract"),
          ("data", Json.str "\x7b\"title\":\"Example\",\"url\":\"https://example.com\",\"text\":\"Hi\"\x7d")]))).2.extract_result
      = none) :=
  ⟨rfl, rfl, rfl, by rfl,
   c8_extract_unwraps ⟨some stExample, none, true⟩ stExample none (some 100)
     (Json.obj [("action", Json.str "extract"),
        ("data", Json.str "\x7b\"title\":\"Example\",\"url\":\"https://example.com\",\"text\":\"Hi\"\x7d")])
     (Json.obj [("title", Json.str "Example"), ("url", Json.str "https://example.com"),
        ("text", Json.str "Hi")])
     "\x7b\"title\":\"Example\",\"url\":\"https://example.com\",\"text\":\"Hi\"\x7d"
     "Example" "https://example.com" "Hi"
     rfl rfl rfl (by rfl) rfl rfl rfl⟩

end HW

namespace HW

-- ── C4 ───────────────────────────────────────────────────────────

theorem lexSQ_escapeChars (l rest : List Char)
    (hb : bslash ∉ l) (hn : nlChar ∉ l) (hc : crChar ∉ l) :
    lexSQ (escapeChars l ++ squote :: rest) = some (l, rest) := by
  induction l with
  | nil =>
    rw [escapeChars, List.nil_append, lexSQ.eq_def]
    simp
  | cons c cs ih =>
    simp only [List.mem_cons, not_or] at hb hn hc
    have ihr := ih hb.2 hn.2 hc.2
    by_cases hq : c = squote
    · subst hq
      rw [escapeChars, if_pos rfl, List.cons_append, List.cons_append, lexSQ.eq_def]
      simp only [if_neg (show ¬ bslash = squote by decide), if_pos rfl]
      rw [ihr]
      have hj : jsUnescape squote = squote := by decide
      rw [hj]
      rfl
    · rw [escapeChars, if_neg hq, List.cons_append, lexSQ.eq_def]
      simp only [if_neg hq, if_neg (fun h : c = bslash => hb.1 h.symm),
        if_neg (show ¬ (c = nlChar ∨ c = crChar) by
          intro h
          cases h with
          | inl h => exact hn.1 h.symm
          | inr h => exact hc.1 h.symm)]
      rw [ihr]
      rfl

/-- C4 counterexample: the escaping only replaces single quotes, so a value
consisting of one backslash passes through unchanged, and inside the
generated single-quoted literal that backslash escapes the closing quote:
the literal never terminates where the command intended, so an input can
break the generated script - the claim that the escaping prevents any
breakage or injection is false. -/
theorem c4_escape_counterexample :
    escapeArg (String.mk [bslash]) = String.mk [bslash]
  ∧ lexSQ ((escapeArg (String.mk [bslash])).data ++ [squote]) = none := ⟨rfl, rfl⟩

/-- C4 (amended): all four content commands escape their selector, value
and filter arguments through the same single-quote escaping before
interpolating them into the generated script call, and for every argument
containing no backslash and no line terminator this keeps the argument
inside the script's single-quoted literal: the literal closes exactly at
the quote the command wrote and decodes back to the original argument.
Arguments containing backslashes can still break out of the literal. -/
theorem c4_escaping_same_and_bounded (s sel val : String) (mc : Option Nat)
    (rest : List Char)
    (hb : bslash ∉ s.data) (hn : nlChar ∉ s.data) (hc : crChar ∉ s.data) :
    extract_script (some s) mc
      = "window.__HW_EXTRACT__.extractAndPost(" ++ sq ++ escapeArg s ++ sq ++ ", "
          ++ toString (mc.getD 8000) ++ ", " ++ sq ++ "extract" ++ sq ++ ");"
  ∧ links_script (some s)
      = "window.__HW_EXTRACT__.linksAndPost(" ++ sq ++ escapeArg s ++ sq ++ ", "
          ++ sq ++ "links" ++ sq ++ ");"
  ∧ click_script s
      = "window.__HW_EXTRACT__.clickAndPost(" ++ sq ++ escapeArg s ++ sq ++ ", "
          ++ sq ++ "click" ++ sq ++ ");"
  ∧ fill_script sel val
      = "window.__HW_EXTRACT__.fillAndPost(" ++ sq ++ escapeArg sel ++ sq ++ ", "
          ++ sq ++ escapeArg val ++ sq ++ ", " ++ sq ++ "fill" ++ sq ++ ");"
  ∧ lexSQ ((escapeArg s).data ++ squote :: rest) = some (s.data, rest) :=
  ⟨rfl, rfl, rfl, rfl, lexSQ_escapeChars s.data rest hb hn hc⟩

/-- Witness for C4 on an argument containing a single quote. -/
theorem c4_escaping_same_and_bounded_witness :
    (bslash ∉ (String.mk ['a', squote, 'b']).data
  ∧ nlChar ∉ (String.mk ['a', squote, 'b']).data
  ∧ crChar ∉ (String.mk ['a', squote, 'b']).data)
  ∧ (click_script (String.mk ['a', squote, 'b'])
      = "window.__HW_EXTRACT__.clickAndPost(" ++ sq ++ escapeArg (String.mk ['a', squote, 'b'])
          ++ sq ++ ", " ++ sq ++ "click" ++ sq ++ ");"
  ∧ lexSQ ((escapeArg (String.mk ['a', squote, 'b'])).data ++ squote :: ['r'])
      = some ((String.mk ['a', squote, 'b']).data, ['r'])) :=
  ⟨⟨by decide, by decide, by decide⟩,
   (c4_escaping_same_and_bounded (String.mk ['a', squote, 'b']) "x" "y" none ['r']
      (by decide) (by decide) (by decide)).2.2.1,
   (c4_escaping_same_and_bounded (String.mk ['a', squote, 'b']) "x" "y" none ['r']
      (by decide) (by decide) (by decide)).2.2.2.2⟩

end HW
